import Mathlib

/-!
# Verification of the react-native-ota local-system servers

Shallow embedding of the two Express handlers of the repository:

* `src/local-system/cdn-server/cdn.js` — the `secureGuard` middleware that
  protects `/files` (the "Storage Gate"), and
* `src/local-system/api-server/api.js` — the `GET /check` handler (the
  "Grant Issuer" / gatekeeper).

Pure request/response behaviour is modelled as total Lean functions; the
file-system read performed by the API handler is modelled as an explicit
store argument `String → MetadataFile`.
-/

/-! ## CDN server (`cdn.js`) -/

/-- The part of an Express request that `secureGuard` inspects:
`req.path` (the path below the `/files` mount point) and
`req.query.token` (`none` when the query string has no `token` key,
mirroring JavaScript `undefined`). -/
structure CdnRequest where
  path : String
  token : Option String
deriving DecidableEq, Repr

/-- Outcome of the guard middleware: either the request is rejected with an
HTTP status and a body (`res.status(403).send('Forbidden: Invalid Signature')`),
or control passes to the static file server (`next()`). -/
inductive GuardResult where
  | forbidden (status : Nat) (body : String)
  | allow
deriving DecidableEq, Repr

/-- `secureGuard` from `cdn.js`:

```js
const secureGuard = (req, res, next) => {
    const token = req.query.token;
    if (token !== 'secure-signature') {
        return res.status(403).send('Forbidden: Invalid Signature');
    }
    next();
};
```

A missing `token` (`undefined`) compares `!==` to the literal, so only
`some "secure-signature"` passes. -/
def secureGuard (req : CdnRequest) : GuardResult :=
  if req.token = some "secure-signature" then GuardResult.allow
  else GuardResult.forbidden 403 "Forbidden: Invalid Signature"

/-- The guard's decision at wall-clock time `now`.  The source never reads a
clock anywhere in `cdn.js`, so the decision at any time is exactly
`secureGuard req`; the unused `now` parameter makes time-(in)dependence
statable. -/
def secureGuardAt (_now : Nat) (req : CdnRequest) : GuardResult :=
  secureGuard req

/-! ## URL parsing (what Express does to `req.url` before `secureGuard` runs)

Express separates the request path from the query string at the first `'?'`
and parses the query string as `&`-separated `key=value` pairs.  Modelled
over `List Char` so that the split of a signed URL can be reasoned about. -/

/-- Split a character list on every occurrence of `c` (the separators are
dropped; `n` separators yield `n+1` pieces). -/
def splitOnChar (c : Char) : List Char → List (List Char)
  | [] => [[]]
  | ch :: rest =>
    if ch = c then [] :: splitOnChar c rest
    else
      match splitOnChar c rest with
      | [] => [[ch]]
      | w :: ws => (ch :: w) :: ws

/-- Re-join pieces with the separator `c` (inverse of `splitOnChar` on its
image); used to recover "everything after the first `'?'`". -/
def joinChar (c : Char) : List (List Char) → List Char
  | [] => []
  | [w] => w
  | w :: ws => w ++ c :: joinChar c ws

/-- Split one `key=value` unit of a query string at its first `'='`
(`"token=secure-signature"` ↦ `("token", "secure-signature")`; a unit with
no `'='` gets the empty value, as in Node query parsing). -/
def kvOf (kv : List Char) : List Char × List Char :=
  (kv.takeWhile (fun ch => ch ≠ '='), (kv.dropWhile (fun ch => ch ≠ '=')).drop 1)

/-- The value of the `token` key in a query string, if present
(first occurrence wins). -/
def tokenParam (q : List Char) : Option String :=
  ((splitOnChar '&' q).filterMap (fun kv =>
      if (kvOf kv).1 = "token".toList then some (String.mk (kvOf kv).2) else none)).head?

/-- Turn a full request URL into the `CdnRequest` that `secureGuard` sees:
the path is everything before the first `'?'`, and `token` is looked up in
the remainder.  A URL with no `'?'` has no query, hence no token. -/
def requestOfUrl (url : String) : CdnRequest :=
  match splitOnChar '?' url.toList with
  | [] => ⟨"", none⟩
  | [p] => ⟨String.mk p, none⟩
  | p :: q :: rest => ⟨String.mk p, tokenParam (joinChar '?' (q :: rest))⟩

/-! ## Update metadata (`metadata.json`, fields as written by `deploy.js`) -/

/-- The per-platform metadata record.  Field names and types follow the
object `deploy.js` writes to `storage/android/metadata.json`:
`{id, version, fileUrl, fileHash, status, force}`. -/
structure Metadata where
  id : String
  version : String
  fileUrl : String
  fileHash : String
  status : String
  force : Bool
deriving DecidableEq, Repr

/-- The "signed" URL minted by the `GET /check` handler in `api.js`:
`` const signedUrl = `${metadata.fileUrl}?token=secure-signature`; ``. -/
def signedUrl (m : Metadata) : String :=
  m.fileUrl ++ "?token=secure-signature"

/-- C2: `secureGuard` denies with 403 and body `'Forbidden: Invalid Signature'`
exactly when the `token` query parameter is not `'secure-signature'`; the
decision depends only on that comparison — not on the requested path (changing
`path` with the token fixed never changes the result) and not on the time
(`secureGuardAt` at any `now` agrees with `secureGuard`). -/
theorem secureGuard_iff_token (p p' : String) (tok : Option String) (now : Nat) :
    (secureGuard ⟨p, tok⟩ = GuardResult.forbidden 403 "Forbidden: Invalid Signature"
      ↔ ¬ (tok = some "secure-signature"))
    ∧ secureGuard ⟨p, tok⟩ = secureGuard ⟨p', tok⟩
    ∧ secureGuardAt now ⟨p, tok⟩ = secureGuard ⟨p, tok⟩ := by
  refine ⟨?_, ?_, rfl⟩
  · unfold secureGuard
    by_cases h : tok = some "secure-signature" <;> simp [h]
  · unfold secureGuard
    by_cases h : tok = some "secure-signature" <;> simp [h]

/-! ## Helper lemmas on query-string splitting -/

/-- A list free of the separator splits into itself alone. -/
theorem splitOnChar_of_not_mem (c : Char) :
    ∀ s : List Char, c ∉ s → splitOnChar c s = [s]
  | [], _ => rfl
  | ch :: rest, h => by
    have hch : ¬ ch = c := fun e => h (e ▸ List.mem_cons_self ch rest)
    have hrest : c ∉ rest := fun e => h (List.mem_cons_of_mem ch e)
    show (if ch = c then [] :: splitOnChar c rest
          else match splitOnChar c rest with
               | [] => [[ch]]
               | w :: ws => (ch :: w) :: ws) = [ch :: rest]
    rw [if_neg hch, splitOnChar_of_not_mem c rest hrest]

/-- Splitting `s ++ c :: t` when `s` is separator-free peels off `s` whole. -/
theorem splitOnChar_append (c : Char) :
    ∀ s t : List Char, c ∉ s → splitOnChar c (s ++ c :: t) = s :: splitOnChar c t
  | [], t, _ => by
    show (if c = c then [] :: splitOnChar c t
          else match splitOnChar c t with
               | [] => [[c]]
               | w :: ws => (c :: w) :: ws) = [] :: splitOnChar c t
    rw [if_pos rfl]
  | ch :: rest, t, h => by
    have hch : ¬ ch = c := fun e => h (e ▸ List.mem_cons_self ch rest)
    have hrest : c ∉ rest := fun e => h (List.mem_cons_of_mem ch e)
    show (if ch = c then [] :: splitOnChar c (rest ++ c :: t)
          else match splitOnChar c (rest ++ c :: t) with
               | [] => [[ch]]
               | w :: ws => (ch :: w) :: ws) = (ch :: rest) :: splitOnChar c t
    rw [if_neg hch, splitOnChar_append c rest t hrest]

/-- The character list of a concatenation is the concatenation of the lists. -/
theorem toList_append (a b : String) : (a ++ b).toList = a.toList ++ b.toList :=
  String.data_append a b

/-- C3: issuance/verification round-trip.  For every metadata record whose
`fileUrl` contains no `'?'` (no pre-existing query string), the URL minted by
the `GET /check` handler — `fileUrl ++ "?token=secure-signature"` — parses to
a request whose `token` parameter is `secure-signature`, which `secureGuard`
accepts: a download using a gatekeeper-minted URL is never rejected by the
CDN token check. -/
theorem signedUrl_roundTrip (m : Metadata) (h : '?' ∉ m.fileUrl.toList) :
    secureGuard (requestOfUrl (signedUrl m)) = GuardResult.allow := by
  have hq : '?' ∉ "token=secure-signature".toList := by decide
  have hdata : (signedUrl m).toList
      = m.fileUrl.toList ++ '?' :: "token=secure-signature".toList := by
    show (m.fileUrl ++ "?token=secure-signature").toList = _
    rw [toList_append]
    rfl
  have hsplit : splitOnChar '?' (signedUrl m).toList
      = m.fileUrl.toList :: ["token=secure-signature".toList] := by
    rw [hdata, splitOnChar_append '?' _ _ h,
        splitOnChar_of_not_mem '?' _ hq]
  unfold requestOfUrl
  rw [hsplit]
  show secureGuard ⟨String.mk m.fileUrl.toList,
        tokenParam (joinChar '?' ["token=secure-signature".toList])⟩ = GuardResult.allow
  have htok : tokenParam (joinChar '?' ["token=secure-signature".toList])
      = some "secure-signature" := by decide
  rw [htok]
  rfl

/-- Witness for `signedUrl_roundTrip` at the concrete metadata record the
deployment script writes. -/
theorem signedUrl_roundTrip_witness :
    secureGuard (requestOfUrl (signedUrl
      ⟨"v201", "2.0.1", "http://10.0.2.2:4000/files/android/update.zip",
        "abc123", "UPDATE", false⟩)) = GuardResult.allow :=
  signedUrl_roundTrip
    ⟨"v201", "2.0.1", "http://10.0.2.2:4000/files/android/update.zip",
      "abc123", "UPDATE", false⟩ (by decide)

/-- C1 (counterexample): the token carried by a URL minted for the android
bundle (path `A = /android/update.zip`) is the shared string
`secure-signature`, and presenting that same token against the distinct path
`B = /ios/update.zip` is ALLOWED by `secureGuard`, not denied with 403: the
guard's decision does not require the requested path to equal the path the
grant was issued for. -/
theorem crossPath_replay_allowed :
    (requestOfUrl (signedUrl
      ⟨"v201", "2.0.1", "http://10.0.2.2:4000/files/android/update.zip",
        "abc123", "UPDATE", false⟩)).token = some "secure-signature"
    ∧ secureGuard ⟨"/ios/update.zip", some "secure-signature"⟩ = GuardResult.allow
    ∧ ("/ios/update.zip" : String) ≠ "/android/update.zip" := by
  refine ⟨by decide, rfl, by decide⟩

/-- C1 (amended): the guard's decision is independent of the requested path —
any token it accepts for one path it accepts for every path, so a grant
minted for one file can be replayed against any other file. -/
theorem secureGuard_path_independent (A B : String) (tok : Option String)
    (h : secureGuard ⟨A, tok⟩ = GuardResult.allow) :
    secureGuard ⟨B, tok⟩ = GuardResult.allow := h

/-- Witness for `secureGuard_path_independent`: the shared token accepted for
the android path is accepted for the ios path. -/
theorem secureGuard_path_independent_witness :
    secureGuard ⟨"/ios/update.zip", some "secure-signature"⟩ = GuardResult.allow :=
  secureGuard_path_independent "/android/update.zip" "/ios/update.zip"
    (some "secure-signature") rfl

/-- C4 (counterexample): a grant whose expiry timestamp is 0 — in the past at
verification time 1000000 — is still allowed by the Storage Gate: `cdn.js`
never reads a clock, so no download is ever denied for expiry. -/
theorem expired_grant_still_allowed :
    (0 : Nat) < 1000000
    ∧ secureGuardAt 1000000 ⟨"/android/update.zip", some "secure-signature"⟩
        = GuardResult.allow :=
  ⟨by decide, rfl⟩

/-- C4 (amended): the Storage Gate performs no expiry check at all — its
decision is the same at every verification time, so a token accepted once is
accepted forever. -/
theorem secureGuard_time_independent (now1 now2 : Nat) (req : CdnRequest) :
    secureGuardAt now1 req = secureGuardAt now2 req
    ∧ secureGuardAt now1 req = secureGuard req :=
  ⟨rfl, rfl⟩

/-- C9: denials are indistinguishable.  Any two requests denied by
`secureGuard` — token absent, token wrong, token minted for another path —
receive identical responses: status 403 with body
`'Forbidden: Invalid Signature'`. -/
theorem denials_uniform (r1 r2 : CdnRequest)
    (h1 : secureGuard r1 ≠ GuardResult.allow)
    (h2 : secureGuard r2 ≠ GuardResult.allow) :
    secureGuard r1 = GuardResult.forbidden 403 "Forbidden: Invalid Signature"
    ∧ secureGuard r1 = secureGuard r2 := by
  unfold secureGuard at *
  by_cases e1 : r1.token = some "secure-signature"
  · exact absurd (by rw [if_pos e1]) h1
  · by_cases e2 : r2.token = some "secure-signature"
    · exact absurd (by rw [if_pos e2]) h2
    · rw [if_neg e1, if_neg e2]
      exact ⟨rfl, rfl⟩

/-- Witness for `denials_uniform`: a token-absent request and a
wrong-token request get the same 403 response. -/
theorem denials_uniform_witness :
    secureGuard ⟨"/android/update.zip", none⟩
        = GuardResult.forbidden 403 "Forbidden: Invalid Signature"
    ∧ secureGuard ⟨"/android/update.zip", none⟩
        = secureGuard ⟨"/ios/update.zip", some "wrong"⟩ :=
  denials_uniform ⟨"/android/update.zip", none⟩ ⟨"/ios/update.zip", some "wrong"⟩
    (by decide) (by decide)

/-! ## API server (`api.js`), `GET /check` -/

/-- What the handler can find at `storage/<platform>/metadata.json`:
the file is absent (`fs.existsSync` false), present but not valid JSON
(the `JSON.parse` throw caught by the `try`/`catch`), or a parsed record. -/
inductive MetadataFile where
  | absent
  | malformed
  | record (m : Metadata)
deriving DecidableEq, Repr

/-- The parts of a `/check` request the claims concern: the `Authorization`
header, the `x-app-platform` header, and an optional installed-version the
caller may supply (no such header is read anywhere in `api.js`; it is carried
here so that (in)dependence on it is statable).  `none` models a missing
header, `some ""` an empty one. -/
structure ApiRequest where
  authorization : Option String
  xAppPlatform : Option String
  installedVersion : Option String
deriving DecidableEq, Repr

/-- The four responses the `GET /check` handler can produce. -/
inductive ApiResponse where
  | unauthorized
  | noUpdate
  | updatePayload (m : Metadata)
  | serverError
deriving DecidableEq, Repr

/-- HTTP status attached to each response (`res.status(401)`,
`res.json(...)` defaulting to 200, `res.status(500)`). -/
def statusOf : ApiResponse → Nat
  | ApiResponse.unauthorized => 401
  | ApiResponse.noUpdate => 200
  | ApiResponse.updatePayload _ => 200
  | ApiResponse.serverError => 500

/-- JavaScript `h || d` on an optional header value: `undefined` (`none`) and
the empty string are falsy, so both fall back to the default. -/
def jsOr (h : Option String) (d : String) : String :=
  match h with
  | none => d
  | some s => if s = "" then d else s

/-- `const platform = req.headers['x-app-platform'] || 'android';` -/
def platformOf (req : ApiRequest) : String :=
  jsOr req.xAppPlatform "android"

/-- The post-authentication body of the handler, as a function of what the
metadata lookup found: absent file → `{update: false}`; unparseable file →
500; parsed record `m` → `res.json({...metadata, fileUrl: signedUrl})`, i.e.
`m` with only its `fileUrl` replaced by the signed URL. -/
def dispatch : MetadataFile → ApiResponse
  | MetadataFile.absent => ApiResponse.noUpdate
  | MetadataFile.malformed => ApiResponse.serverError
  | MetadataFile.record m =>
      ApiResponse.updatePayload { m with fileUrl := signedUrl m }

/-- The `GET /check` handler of `api.js`.  `store` models the file-system
read `storage/<platform>/metadata.json`.  Authentication is checked first
with an early `return res.status(401)`; only on the authenticated path is
the platform resolved and the store consulted. -/
def checkHandler (store : String → MetadataFile) (req : ApiRequest) : ApiResponse :=
  if req.authorization = some "Bearer my-secret-user" then
    dispatch (store (platformOf req))
  else ApiResponse.unauthorized

/-- A concrete store for witnesses: the android record the deployment script
writes, no other platform deployed. -/
def demoStore : String → MetadataFile := fun p =>
  if p = "android" then
    MetadataFile.record
      ⟨"v201", "2.0.1", "http://10.0.2.2:4000/files/android/update.zip",
        "abc123", "UPDATE", false⟩
  else MetadataFile.absent

/-- C6: with a valid credential, a platform whose metadata file is absent
yields HTTP 200 with `{update: false}` — a normal outcome, not an error
status. -/
theorem check_absent_metadata (store : String → MetadataFile) (req : ApiRequest)
    (hauth : req.authorization = some "Bearer my-secret-user")
    (habs : store (platformOf req) = MetadataFile.absent) :
    checkHandler store req = ApiResponse.noUpdate
    ∧ statusOf (checkHandler store req) = 200 := by
  unfold checkHandler
  rw [if_pos hauth, habs]
  exact ⟨rfl, rfl⟩

/-- Witness for `check_absent_metadata`: `demoStore` has no ios record. -/
theorem check_absent_metadata_witness :
    checkHandler demoStore ⟨some "Bearer my-secret-user", some "ios", none⟩
      = ApiResponse.noUpdate
    ∧ statusOf (checkHandler demoStore ⟨some "Bearer my-secret-user", some "ios", none⟩)
      = 200 :=
  check_absent_metadata demoStore ⟨some "Bearer my-secret-user", some "ios", none⟩
    rfl (by decide)

/-- C7: a missing or wrong `Authorization` header yields HTTP 401, and the
response is independent of the metadata store — the handler returns before
any metadata access, so no read, no URL signing and no payload occur on the
unauthorized path. -/
theorem check_unauthorized (store store2 : String → MetadataFile) (req : ApiRequest)
    (h : ¬ req.authorization = some "Bearer my-secret-user") :
    checkHandler store req = ApiResponse.unauthorized
    ∧ statusOf (checkHandler store req) = 401
    ∧ checkHandler store req = checkHandler store2 req := by
  unfold checkHandler
  rw [if_neg h, if_neg h]
  exact ⟨rfl, rfl, rfl⟩

/-- Witness for `check_unauthorized`: no credential, two different stores. -/
theorem check_unauthorized_witness :
    checkHandler demoStore ⟨none, some "android", none⟩ = ApiResponse.unauthorized
    ∧ statusOf (checkHandler demoStore ⟨none, some "android", none⟩) = 401
    ∧ checkHandler demoStore ⟨none, some "android", none⟩
        = checkHandler (fun _ => MetadataFile.absent) ⟨none, some "android", none⟩ :=
  check_unauthorized demoStore (fun _ => MetadataFile.absent)
    ⟨none, some "android", none⟩ (by decide)

/-- C8: on the successful path — valid credential, parsed record `m` — the
response is `m` with exactly one field changed: `fileUrl` becomes the
original value with `?token=secure-signature` appended, while `id`,
`version`, `fileHash`, `status` and `force` are returned unchanged. -/
theorem check_updates_only_fileUrl (store : String → MetadataFile)
    (req : ApiRequest) (m : Metadata)
    (hauth : req.authorization = some "Bearer my-secret-user")
    (hm : store (platformOf req) = MetadataFile.record m) :
    checkHandler store req = ApiResponse.updatePayload
      { id := m.id, version := m.version,
        fileUrl := m.fileUrl ++ "?token=secure-signature",
        fileHash := m.fileHash, status := m.status, force := m.force }
    ∧ statusOf (checkHandler store req) = 200 := by
  unfold checkHandler
  rw [if_pos hauth, hm]
  exact ⟨rfl, rfl⟩

/-- Witness for `check_updates_only_fileUrl` at the android demo record. -/
theorem check_updates_only_fileUrl_witness :
    checkHandler demoStore ⟨some "Bearer my-secret-user", some "android", none⟩
      = ApiResponse.updatePayload
        { id := "v201", version := "2.0.1",
          fileUrl := "http://10.0.2.2:4000/files/android/update.zip"
            ++ "?token=secure-signature",
          fileHash := "abc123", status := "UPDATE", force := false }
    ∧ statusOf (checkHandler demoStore
        ⟨some "Bearer my-secret-user", some "android", none⟩) = 200 :=
  check_updates_only_fileUrl demoStore
    ⟨some "Bearer my-secret-user", some "android", none⟩
    ⟨"v201", "2.0.1", "http://10.0.2.2:4000/files/android/update.zip",
      "abc123", "UPDATE", false⟩ rfl (by decide)

/-- C5 (counterexample): the handler performs no version comparison.  With a
valid credential, the android record at version `2.0.1`, and a supplied
installed version `2.0.1` (≥ the metadata version), the response is NOT
`{update: false}` — it is the full signed update payload. -/
theorem check_version_ignored_counterexample :
    checkHandler demoStore
        ⟨some "Bearer my-secret-user", some "android", some "2.0.1"⟩
      ≠ ApiResponse.noUpdate
    ∧ checkHandler demoStore
        ⟨some "Bearer my-secret-user", some "android", some "2.0.1"⟩
      = ApiResponse.updatePayload
        ⟨"v201", "2.0.1",
          "http://10.0.2.2:4000/files/android/update.zip?token=secure-signature",
          "abc123", "UPDATE", false⟩ :=
  ⟨by decide, by decide⟩

/-- C5 (amended): the handler never compares versions — its response is
independent of any supplied installed version, and with a valid credential
and an existing record it always returns the signed payload, even when the
installed version equals or exceeds the metadata version. -/
theorem check_no_version_gate (store : String → MetadataFile)
    (auth plat v1 v2 : Option String) (m : Metadata)
    (hauth : auth = some "Bearer my-secret-user")
    (hm : store (jsOr plat "android") = MetadataFile.record m) :
    checkHandler store ⟨auth, plat, v1⟩ = checkHandler store ⟨auth, plat, v2⟩
    ∧ checkHandler store ⟨auth, plat, v1⟩
        = ApiResponse.updatePayload { m with fileUrl := signedUrl m } := by
  subst hauth
  unfold checkHandler
  rw [if_pos rfl]
  show dispatch (store (jsOr plat "android")) = dispatch (store (jsOr plat "android"))
    ∧ dispatch (store (jsOr plat "android")) = _
  rw [hm]
  exact ⟨rfl, rfl⟩

/-- Witness for `check_no_version_gate`: installed versions `2.0.1` and
`1.0.0` get the same signed payload from the android demo record. -/
theorem check_no_version_gate_witness :
    checkHandler demoStore
        ⟨some "Bearer my-secret-user", some "android", some "2.0.1"⟩
      = checkHandler demoStore
        ⟨some "Bearer my-secret-user", some "android", some "1.0.0"⟩
    ∧ checkHandler demoStore
        ⟨some "Bearer my-secret-user", some "android", some "2.0.1"⟩
      = ApiResponse.updatePayload
        { (⟨"v201", "2.0.1", "http://10.0.2.2:4000/files/android/update.zip",
            "abc123", "UPDATE", false⟩ : Metadata) with
          fileUrl := signedUrl
            ⟨"v201", "2.0.1", "http://10.0.2.2:4000/files/android/update.zip",
              "abc123", "UPDATE", false⟩ } :=
  check_no_version_gate demoStore (some "Bearer my-secret-user") (some "android")
    (some "2.0.1") (some "1.0.0")
    ⟨"v201", "2.0.1", "http://10.0.2.2:4000/files/android/update.zip",
      "abc123", "UPDATE", false⟩ rfl (by decide)

/-- C10: a missing or empty `x-app-platform` header defaults the platform to
`android`: an authenticated request with no platform header is answered from
the android metadata record (`dispatch (store "android")`), not rejected and
not treated as having no update. -/
theorem check_platform_defaults_android (store : String → MetadataFile)
    (auth v h : Option String)
    (hauth : auth = some "Bearer my-secret-user")
    (hh : h = none ∨ h = some "") :
    platformOf ⟨auth, h, v⟩ = "android"
    ∧ checkHandler store ⟨auth, h, v⟩ = dispatch (store "android") := by
  subst hauth
  rcases hh with e | e <;> subst e <;> exact ⟨rfl, rfl⟩

/-- Witness for `check_platform_defaults_android`: no platform header, the
android demo record is served. -/
theorem check_platform_defaults_android_witness :
    platformOf ⟨some "Bearer my-secret-user", none, none⟩ = "android"
    ∧ checkHandler demoStore ⟨some "Bearer my-secret-user", none, none⟩
        = dispatch (demoStore "android") :=
  check_platform_defaults_android demoStore (some "Bearer my-secret-user")
    none none rfl (Or.inl rfl)
